import Mathlib

/-!
Verification of the two-stage godrays effect (src/src/index.ts).

The TypeScript classes are embedded shallowly: mutable uniform dictionaries
become Lean structures, method calls become state-passing functions, and
thrown exceptions become `Except String` errors (or, where the source mutates
state before throwing, a pair of the mutated state and an optional error).
JavaScript object references held by uniforms (the live Vector3 / Matrix4
objects of the camera and light, mutated in place by the host every frame)
are modelled by the `VRef` type: a uniform stores which host object it
aliases, and `VRef.deref` reads the object content out of the current host
state.  Object contents (vectors, matrices) are abstracted to opaque `Int`
values, and GPU textures to `Nat` identities, since no claim depends on
their internal structure.
-/

namespace ThreeGoodGodrays

/-- Depth packing strategies of three.js that the source compares against:
`THREE.BasicDepthPacking` and the other supported strategy,
`THREE.RGBADepthPacking`. -/
inductive DepthPacking
  | basic
  | rgba
deriving DecidableEq

/-- A shadow map render target (`pointLight.shadow.map`): its `.texture`
(abstracted to an identity) and its `.height`. -/
structure ShadowMap where
  texture : Nat
  height : Nat
deriving DecidableEq

/-- The light's shadow configuration (`pointLight.shadow`): the possibly
not-yet-allocated map and the shadow camera near/far planes. -/
structure PointLightShadow where
  map : Option ShadowMap
  cameraNear : ℚ
  cameraFar : ℚ
deriving DecidableEq

/-- The host-owned mutable objects read by the pass each frame: the contents
of the light's position vector, the camera's position vector, the camera's
inverse projection matrix and world matrix (each abstracted to an opaque
`Int` content mutated in place by the host), and the light's shadow
configuration (`Option` because `updateUniforms` in the source explicitly
checks for its absence). -/
structure HostState where
  lightPosV : Int
  cameraPosV : Int
  projMatrixInvV : Int
  matrixWorldV : Int
  shadow : Option PointLightShadow
deriving DecidableEq

/-- A JavaScript object reference stored in a uniform slot: either the fresh
Vector3/Matrix4 created in the `GodraysMaterial` constructor (`initObj`), or
an alias of one of the host's live objects. -/
inductive VRef
  | initObj
  | lightPosObj
  | cameraPosObj
  | projMatrixInvObj
  | matrixWorldObj
deriving DecidableEq

/-- Dereference a uniform's object reference against the current host state:
this is the value the shader observes this frame.  The fresh objects created
in the material constructor hold content 0. -/
def VRef.deref (h : HostState) : VRef → Int
  | VRef.initObj => 0
  | VRef.lightPosObj => h.lightPosV
  | VRef.cameraPosObj => h.cameraPosV
  | VRef.projMatrixInvObj => h.projMatrixInvV
  | VRef.matrixWorldObj => h.matrixWorldV

/-- `GodraysPassParams` (src/src/index.ts lines 256-281).  `color` is the
color value, abstracted to its hex representation. -/
structure GodraysPassParams where
  density : ℚ
  maxDensity : ℚ
  edgeStrength : ℚ
  edgeRadius : ℚ
  distanceAttenuation : ℚ
  color : Nat
deriving DecidableEq

/-- `Partial<GodraysPassParams>`: every field optional. -/
structure PartialGodraysPassParams where
  density : Option ℚ := none
  maxDensity : Option ℚ := none
  edgeStrength : Option ℚ := none
  edgeRadius : Option ℚ := none
  distanceAttenuation : Option ℚ := none
  color : Option Nat := none
deriving DecidableEq

/-- `defaultParams` (src/src/index.ts lines 283-290). -/
def defaultParams : GodraysPassParams :=
  { density := 1 / 128
    maxDensity := 1 / 2
    edgeStrength := 2
    edgeRadius := 1
    distanceAttenuation := 1 / 200
    color := 0xffffff }

/-- `populateParams` (src/src/index.ts lines 292-300): spread the defaults,
then the partial overrides; the color is copied by value
(`new THREE.Color(partialParams.color ?? defaultParams.color)`). -/
def populateParams (partialParams : PartialGodraysPassParams) : GodraysPassParams :=
  { density := partialParams.density.getD defaultParams.density
    maxDensity := partialParams.maxDensity.getD defaultParams.maxDensity
    edgeStrength := partialParams.edgeStrength.getD defaultParams.edgeStrength
    edgeRadius := partialParams.edgeRadius.getD defaultParams.edgeRadius
    distanceAttenuation := partialParams.distanceAttenuation.getD defaultParams.distanceAttenuation
    color := partialParams.color.getD defaultParams.color }

/-- A full parameter record viewed as a partial one (every field present),
as when the `GodraysPass` constructor calls `this.setParams(params)`. -/
def toPartialParams (p : GodraysPassParams) : PartialGodraysPassParams :=
  { density := some p.density
    maxDensity := some p.maxDensity
    edgeStrength := some p.edgeStrength
    edgeRadius := some p.edgeRadius
    distanceAttenuation := some p.distanceAttenuation
    color := some p.color }

/-- `GODRAYS_RESOLUTION_SCALE` (src/src/index.ts line 17). -/
def GODRAYS_RESOLUTION_SCALE : ℚ := 1 / 2

/-- `Math.ceil(dim * GODRAYS_RESOLUTION_SCALE)` applied to an integer
dimension, as in `GodraysPass.setSize` and `GodraysIllumPass.setSize`. -/
def scaleDim (dim : Nat) : Nat :=
  (Int.toNat ⌈(dim : ℚ) * GODRAYS_RESOLUTION_SCALE⌉)

/-- The uniform dictionary of `GodraysMaterial` (src/src/index.ts lines
34-50).  Texture-valued uniforms hold `Option Nat` texture identities;
vector/matrix uniforms hold object references (`VRef`). -/
structure IllumUniforms where
  density : ℚ
  maxDensity : ℚ
  distanceAttenuation : ℚ
  sceneDepth : Option Nat
  lightPos : VRef
  cameraPos : VRef
  resolution : Nat × Nat
  projectionMatrixInv : VRef
  viewMatrixInv : VRef
  depthCube : Option Nat
  mapSize : Nat
  pointLightCameraNear : ℚ
  pointLightCameraFar : ℚ
  blueNoise : Option Nat
  noiseResolution : Nat × Nat
deriving DecidableEq

/-- The initial uniform values set in the `GodraysMaterial` constructor
(src/src/index.ts lines 34-50).  The asynchronous blue-noise texture load
(lines 59-65) completes outside the synchronous paths modelled here, so
`blueNoise` stays in its initial state. -/
def godraysMaterialUniforms : IllumUniforms :=
  { density := 1 / 128
    maxDensity := 1 / 2
    distanceAttenuation := 1 / 200
    sceneDepth := none
    lightPos := VRef.initObj
    cameraPos := VRef.initObj
    resolution := (1, 1)
    projectionMatrixInv := VRef.initObj
    viewMatrixInv := VRef.initObj
    depthCube := none
    mapSize := 1
    pointLightCameraNear := 1 / 10
    pointLightCameraFar := 1000
    blueNoise := none
    noiseResolution := (1, 1) }

/-- `GodraysIllumPass.updateUniforms` (src/src/index.ts lines 120-146):
throws when the light has no shadow configuration; otherwise overwrites the
parameter-derived scalar uniforms, stores references to the live light and
camera objects, and snapshots the shadow map texture handle, map size and
shadow camera near/far. -/
def updateUniforms (h : HostState) (params : GodraysPassParams)
    (u : IllumUniforms) : Except String IllumUniforms :=
  match h.shadow with
  | none => Except.error "Point light must have shadow"
  | some pointLightShadow =>
      Except.ok { u with
        density := params.density
        maxDensity := params.maxDensity
        lightPos := VRef.lightPosObj
        cameraPos := VRef.cameraPosObj
        projectionMatrixInv := VRef.projMatrixInvObj
        viewMatrixInv := VRef.matrixWorldObj
        depthCube := pointLightShadow.map.map ShadowMap.texture
        mapSize := (pointLightShadow.map.map ShadowMap.height).getD 1
        pointLightCameraNear := pointLightShadow.cameraNear
        pointLightCameraFar := pointLightShadow.cameraFar
        distanceAttenuation := params.distanceAttenuation }

/-- The state of a `GodraysIllumPass` instance: its material uniforms, the
`shadowMapSet` flag (src/src/index.ts line 71), and `lastParams`, assigned
only in the constructor (line 79). -/
structure IllumPassState where
  uniforms : IllumUniforms
  shadowMapSet : Bool
  lastParams : GodraysPassParams
deriving DecidableEq

/-- The `GodraysIllumPass` constructor (src/src/index.ts lines 75-85):
stores `lastParams` and applies `updateUniforms` to the fresh material. -/
def illumConstruct (h : HostState) (params : GodraysPassParams) :
    Except String IllumPassState :=
  (updateUniforms h params godraysMaterialUniforms).map
    (fun u => { uniforms := u, shadowMapSet := false, lastParams := params })

/-- `GodraysIllumPass.setSize` (src/src/index.ts lines 87-92). -/
def illumSetSize (width height : Nat) (st : IllumPassState) : IllumPassState :=
  { st with uniforms :=
      { st.uniforms with resolution := (scaleDim width, scaleDim height) } }

/-- Which pass a draw command executes. -/
inductive PassTag
  | illum
  | compositor
deriving DecidableEq

/-- Commands issued to the renderer, in submission order: bind a render
target (`none` is the screen) or draw a pass's fullscreen scene. -/
inductive RenderCmd
  | setRenderTarget (target : Option Nat)
  | draw (tag : PassTag)
deriving DecidableEq

/-- `GodraysIllumPass.render` (src/src/index.ts lines 94-108): when the
shadow map has not been applied yet and the light's shadow map texture is
now available, re-run `updateUniforms` with the current props and the stored
`lastParams` and mark `shadowMapSet`; in every case bind the output buffer
and draw.  When `shadowMapSet` is still false, reading
`this.props.pointLight.shadow.map` would fail on a light without a shadow
(no optional chaining on `.shadow` in the source). -/
def illumRender (h : HostState) (target : Nat) (st : IllumPassState) :
    Except String (IllumPassState × List RenderCmd) :=
  let cmds := [RenderCmd.setRenderTarget (some target), RenderCmd.draw PassTag.illum]
  if st.shadowMapSet then Except.ok (st, cmds)
  else
    match h.shadow with
    | none => Except.error "TypeError: Cannot read properties of null"
    | some s =>
        match s.map with
        | none => Except.ok (st, cmds)
        | some _ =>
            (updateUniforms h st.lastParams st.uniforms).map
              (fun u => ({ st with uniforms := u, shadowMapSet := true }, cmds))

/-- True when a provided depth packing is not `BasicDepthPacking`
(`depthPacking && depthPacking !== THREE.BasicDepthPacking`). -/
def badDepthPacking (depthPacking : Option DepthPacking) : Bool :=
  match depthPacking with
  | none => false
  | some p => p != DepthPacking.basic

/-- `GodraysIllumPass.setDepthTexture` (src/src/index.ts lines 110-118):
the `sceneDepth` uniform is assigned first, then the packing is checked and
an error thrown for a non-basic packing.  The result pairs the mutated
uniforms with the error, if any, since the mutation survives the throw. -/
def illumSetDepthTexture (depthTexture : Nat)
    (depthPacking : Option DepthPacking) (u : IllumUniforms) :
    IllumUniforms × Option String :=
  let u2 := { u with sceneDepth := some depthTexture }
  if badDepthPacking depthPacking then
    (u2, some "Only BasicDepthPacking is supported")
  else (u2, none)

/-- The uniform dictionary of `GodraysCompositorMaterial` (src/src/index.ts
lines 166-174). -/
structure CompositorUniforms where
  godrays : Nat
  sceneDiffuse : Option Nat
  sceneDepth : Option Nat
  edgeStrength : ℚ
  edgeRadius : ℚ
  color : Nat
  resolution : Nat × Nat
deriving DecidableEq

/-- `GodraysCompositorMaterial.updateUniforms` (src/src/index.ts lines
188-196). -/
def compositorUpdateUniforms (edgeStrength edgeRadius : ℚ) (color : Nat)
    (c : CompositorUniforms) : CompositorUniforms :=
  { c with edgeStrength := edgeStrength, edgeRadius := edgeRadius, color := color }

/-- The `GodraysCompositorMaterial` constructor (src/src/index.ts lines
160-186): initial uniforms, then `updateUniforms` with the same values. -/
def compositorMaterialConstruct (godrays : Nat) (edgeStrength edgeRadius : ℚ)
    (color : Nat) : CompositorUniforms :=
  compositorUpdateUniforms edgeStrength edgeRadius color
    { godrays := godrays
      sceneDiffuse := none
      sceneDepth := none
      edgeStrength := edgeStrength
      edgeRadius := edgeRadius
      color := color
      resolution := (1, 1) }

/-- `GodraysCompositorPass.updateUniforms` (src/src/index.ts lines
209-215). -/
def compositorPassUpdateUniforms (params : GodraysPassParams)
    (c : CompositorUniforms) : CompositorUniforms :=
  compositorUpdateUniforms params.edgeStrength params.edgeRadius params.color c

/-- `GodraysCompositorPass.render` (src/src/index.ts lines 217-229): store
the input buffer's texture in `sceneDiffuse`, bind the output target and
draw. -/
def compositorRender (inputTexture : Nat) (target : Option Nat)
    (c : CompositorUniforms) : CompositorUniforms × List RenderCmd :=
  ({ c with sceneDiffuse := some inputTexture },
   [RenderCmd.setRenderTarget target, RenderCmd.draw PassTag.compositor])

/-- `GodraysCompositorPass.setDepthTexture` (src/src/index.ts lines
231-241): the packing is checked (and a non-basic packing throws) before the
`sceneDepth` uniform is assigned. -/
def compositorSetDepthTexture (depthTexture : Nat)
    (depthPacking : Option DepthPacking) (c : CompositorUniforms) :
    CompositorUniforms × Option String :=
  if badDepthPacking depthPacking then
    (c, some "Only BasicDepthPacking is supported")
  else ({ c with sceneDepth := some depthTexture }, none)

/-- `GodraysCompositorPass.setSize` (src/src/index.ts lines 243-248 and
198-200): the compositor resolution is the full output resolution. -/
def compositorSetSize (width height : Nat) (c : CompositorUniforms) :
    CompositorUniforms :=
  { c with resolution := (width, height) }

/-- The intermediate `godraysRenderTarget` (src/src/index.ts lines 305-309):
its texture identity and current dimensions. -/
structure RenderTarget where
  texture : Nat
  width : Nat
  height : Nat
deriving DecidableEq

/-- The state of a `GodraysPass` instance. -/
structure GodraysPassState where
  illum : IllumPassState
  compositor : CompositorUniforms
  godraysRenderTarget : RenderTarget
  renderToScreen : Bool
deriving DecidableEq

/-- `GodraysPass.setParams` (src/src/index.ts lines 371-375): populate the
partial record against the library defaults, then push the full record into
both stage passes.  `lastParams` of the illumination pass is not updated. -/
def godraysSetParams (h : HostState) (partialParams : PartialGodraysPassParams)
    (st : GodraysPassState) : Except String GodraysPassState :=
  let params := populateParams partialParams
  (updateUniforms h params st.illum.uniforms).map
    (fun u =>
      { st with
        illum := { st.illum with uniforms := u }
        compositor := compositorPassUpdateUniforms params st.compositor })

/-- The `GodraysPass` constructor (src/src/index.ts lines 338-366): populate
the params, build the illumination pass (which may throw on a light without
shadow), build the compositor pass wired to the godrays render target's
texture, then call `setParams` with the full populated record. -/
def godraysConstruct (h : HostState) (partialParams : PartialGodraysPassParams) :
    Except String GodraysPassState := do
  let params := populateParams partialParams
  let illum ← illumConstruct h params
  let rt : RenderTarget := { texture := 0, width := 1, height := 1 }
  let comp := compositorMaterialConstruct rt.texture params.edgeStrength
    params.edgeRadius params.color
  godraysSetParams h (toPartialParams params)
    { illum := illum, compositor := comp, godraysRenderTarget := rt,
      renderToScreen := false }

/-- `GodraysPass.render` (src/src/index.ts lines 377-391): the illumination
pass renders into the godrays render target, then the compositor pass
renders into the output buffer (or the screen). -/
def godraysRender (h : HostState) (inputTexture outputTexture : Nat)
    (st : GodraysPassState) :
    Except String (GodraysPassState × List RenderCmd) := do
  let (il, cmds1) ← illumRender h st.godraysRenderTarget.texture st.illum
  let (c, cmds2) := compositorRender inputTexture
    (if st.renderToScreen then none else some outputTexture) st.compositor
  Except.ok ({ st with illum := il, compositor := c }, cmds1 ++ cmds2)

/-- `GodraysPass.setDepthTexture` (src/src/index.ts lines 393-399): forward
to the illumination pass first, then to the compositor pass; an error from
the illumination pass propagates before the compositor is reached, but its
uniform mutation persists. -/
def godraysSetDepthTexture (depthTexture : Nat)
    (depthPacking : Option DepthPacking) (st : GodraysPassState) :
    GodraysPassState × Option String :=
  let (u, e1) := illumSetDepthTexture depthTexture depthPacking st.illum.uniforms
  let st1 := { st with illum := { st.illum with uniforms := u } }
  match e1 with
  | some err => (st1, some err)
  | none =>
      let (c, e2) := compositorSetDepthTexture depthTexture depthPacking st1.compositor
      ({ st1 with compositor := c }, e2)

/-- `GodraysPass.setSize` (src/src/index.ts lines 401-408): resize the
godrays render target at the fixed scale, and forward to both passes. -/
def godraysSetSize (width height : Nat) (st : GodraysPassState) :
    GodraysPassState :=
  { st with
    godraysRenderTarget := { st.godraysRenderTarget with
      width := scaleDim width, height := scaleDim height }
    illum := illumSetSize width height st.illum
    compositor := compositorSetSize width height st.compositor }

/-- Modelled from the spec: the per-pixel raymarch accumulation loop of the
Illumination Stage fragment shader (the shader source `godrays.frag` is not
under src/).  Each step is a pair of a lit/occluded flag and the falloff
factor exp(-distanceAttenuation * distanceFromLight) of that sample, a value
in [0, 1]; a lit sample adds `density * falloff` to the accumulator, and the
running accumulator is clamped to `maxDensity` after each step. -/
def accumulateDensity (density maxDensity : ℚ) (steps : List (Bool × ℚ)) : ℚ :=
  steps.foldl
    (fun acc step =>
      min (acc + (if step.1 then density * step.2 else 0)) maxDensity) 0

/-- A concrete host state with a fully available shadow map (texture 1,
height 512), used by witnesses and counterexamples. -/
def hostA : HostState :=
  { lightPosV := 10
    cameraPosV := 20
    projMatrixInvV := 30
    matrixWorldV := 40
    shadow := some { map := some { texture := 1, height := 512 },
                     cameraNear := 1 / 10, cameraFar := 1000 } }

/-- A concrete host state whose light has a shadow configuration but whose
shadow map has not been allocated yet. -/
def hostNoMap : HostState :=
  { hostA with shadow := some { map := none, cameraNear := 1 / 10, cameraFar := 1000 } }

/-- A concrete host state whose light has no shadow configuration. -/
def hostNone : HostState :=
  { hostA with shadow := none }

/-- A concrete host state whose shadow map render target has been replaced
by the host with a fresh one (texture 2). -/
def hostB : HostState :=
  { hostA with shadow := some { map := some { texture := 2, height := 512 },
                                cameraNear := 1 / 10, cameraFar := 1000 } }

/-- A concrete `GodraysPass` state, used by witnesses. -/
def passStateA : GodraysPassState :=
  { illum := { uniforms := godraysMaterialUniforms, shadowMapSet := false,
               lastParams := defaultParams }
    compositor := compositorMaterialConstruct 0 2 1 0xffffff
    godraysRenderTarget := { texture := 0, width := 1, height := 1 }
    renderToScreen := false }

/-- The concrete illumination uniform bundle produced by `updateUniforms`
against `hostA` with the default params, used by a witness. -/
def uniformsA : IllumUniforms :=
  { godraysMaterialUniforms with
    density := defaultParams.density
    maxDensity := defaultParams.maxDensity
    lightPos := VRef.lightPosObj
    cameraPos := VRef.cameraPosObj
    projectionMatrixInv := VRef.projMatrixInvObj
    viewMatrixInv := VRef.matrixWorldObj
    depthCube := some 1
    mapSize := 512
    pointLightCameraNear := 1 / 10
    pointLightCameraFar := 1000
    distanceAttenuation := defaultParams.distanceAttenuation }

/-- A concrete illumination pass state whose shadow map has already been
applied, used by a witness. -/
def illumStateSet : IllumPassState :=
  { passStateA.illum with shadowMapSet := true }

/-- `Math.ceil(n * 0.5)` on an integer dimension is the rounding-up halving
`(n + 1) / 2` in natural-number division. -/
theorem scaleDim_eq (n : Nat) : scaleDim n = (n + 1) / 2 := by
  obtain ⟨q, hq⟩ : ∃ q, (n + 1) / 2 = q := ⟨(n + 1) / 2, rfl⟩
  have hq1 : n ≤ 2 * q := by omega
  have hq2 : 2 * q < n + 2 := by omega
  have h2 : ⌈(n : ℚ) * GODRAYS_RESOLUTION_SCALE⌉ = (q : ℤ) := by
    rw [Int.ceil_eq_iff]
    have c1 : (n : ℚ) ≤ 2 * (q : ℚ) := by exact_mod_cast hq1
    have c2 : 2 * (q : ℚ) < (n : ℚ) + 2 := by exact_mod_cast hq2
    unfold GODRAYS_RESOLUTION_SCALE
    constructor
    · push_cast
      linarith
    · push_cast
      linarith
  unfold scaleDim
  rw [h2, Int.toNat_natCast, hq]

/-- The raymarch accumulator stays within [0, maxDensity] from any starting
accumulator already in that range, provided the density rate and every
falloff factor are nonnegative. -/
theorem accumulateDensity_foldl_bounds (density maxD : ℚ) (hd : 0 ≤ density) :
    ∀ steps : List (Bool × ℚ), (∀ s ∈ steps, 0 ≤ s.2) →
      ∀ acc : ℚ, 0 ≤ acc → acc ≤ maxD →
        0 ≤ List.foldl
            (fun a s => min (a + (if s.1 then density * s.2 else 0)) maxD) acc steps ∧
        List.foldl
            (fun a s => min (a + (if s.1 then density * s.2 else 0)) maxD) acc steps ≤ maxD := by
  intro steps
  induction steps with
  | nil => intro _ acc h0 h1; exact ⟨h0, h1⟩
  | cons head tail ih =>
      intro hf acc h0 h1
      have hmaxD : 0 ≤ maxD := le_trans h0 h1
      have hc : 0 ≤ (if head.1 then density * head.2 else 0) := by
        by_cases hb : head.1
        · simp only [hb, if_true]
          exact mul_nonneg hd (hf head (List.mem_cons_self head tail))
        · simp [hb]
      simp only [List.foldl_cons]
      apply ih
      · intro s hs
        exact hf s (List.mem_cons_of_mem head hs)
      · exact le_min (by linarith) hmaxD
      · exact min_le_right _ _

/-- Claim C1 is false as stated: a concrete run in which the pass is
constructed with density 3/8, then `setParams` is called specifying only
`maxDensity`; the unspecified `density` field does not retain its prior
value 3/8 but is reset to the library default 1/128. -/
theorem C1_counterexample :
    ((godraysConstruct hostA { density := some (3 / 8) }).map
        (fun st => st.illum.uniforms.density)) = Except.ok (3 / 8 : ℚ) ∧
    ((godraysConstruct hostA { density := some (3 / 8) }).bind
        (godraysSetParams hostA { maxDensity := some (9 / 10) })).map
        (fun st => st.illum.uniforms.density) = Except.ok (1 / 128 : ℚ) ∧
    (1 / 128 : ℚ) ≠ 3 / 8 := by
  refine ⟨rfl, rfl, by norm_num⟩

/-- Claim C1 (amended): for every call to `GodraysPass.setParams` with a
partial parameter record (on a light with a shadow configuration), every
field not specified in the partial record is reset to the library default
from `defaultParams` — not retained from before the call — while every
specified field takes the specified value. -/
theorem C1_amended (h : HostState) (s : PointLightShadow)
    (hs : h.shadow = some s) (pp : PartialGodraysPassParams)
    (st : GodraysPassState) :
    ∃ st2, godraysSetParams h pp st = Except.ok st2 ∧
      (pp.density = none → st2.illum.uniforms.density = defaultParams.density) ∧
      (pp.maxDensity = none → st2.illum.uniforms.maxDensity = defaultParams.maxDensity) ∧
      (pp.distanceAttenuation = none →
        st2.illum.uniforms.distanceAttenuation = defaultParams.distanceAttenuation) ∧
      (pp.edgeStrength = none → st2.compositor.edgeStrength = defaultParams.edgeStrength) ∧
      (pp.edgeRadius = none → st2.compositor.edgeRadius = defaultParams.edgeRadius) ∧
      (pp.color = none → st2.compositor.color = defaultParams.color) ∧
      (∀ d, pp.density = some d → st2.illum.uniforms.density = d) ∧
      (∀ d, pp.maxDensity = some d → st2.illum.uniforms.maxDensity = d) ∧
      (∀ d, pp.distanceAttenuation = some d →
        st2.illum.uniforms.distanceAttenuation = d) ∧
      (∀ d, pp.edgeStrength = some d → st2.compositor.edgeStrength = d) ∧
      (∀ d, pp.edgeRadius = some d → st2.compositor.edgeRadius = d) ∧
      (∀ c, pp.color = some c → st2.compositor.color = c) := by
  unfold godraysSetParams updateUniforms
  rw [hs]
  refine ⟨_, rfl, ?_, ?_, ?_, ?_, ?_, ?_, ?_, ?_, ?_, ?_, ?_, ?_⟩
  · intro hnone
    simp [populateParams, hnone]
  · intro hnone
    simp [populateParams, hnone]
  · intro hnone
    simp [populateParams, hnone]
  · intro hnone
    simp [compositorPassUpdateUniforms, compositorUpdateUniforms, populateParams, hnone]
  · intro hnone
    simp [compositorPassUpdateUniforms, compositorUpdateUniforms, populateParams, hnone]
  · intro hnone
    simp [compositorPassUpdateUniforms, compositorUpdateUniforms, populateParams, hnone]
  · intro d hd
    simp [populateParams, hd]
  · intro d hd
    simp [populateParams, hd]
  · intro d hd
    simp [populateParams, hd]
  · intro d hd
    simp [compositorPassUpdateUniforms, compositorUpdateUniforms, populateParams, hd]
  · intro d hd
    simp [compositorPassUpdateUniforms, compositorUpdateUniforms, populateParams, hd]
  · intro c hc
    simp [compositorPassUpdateUniforms, compositorUpdateUniforms, populateParams, hc]

/-- Witness for the amended claim C1 at a concrete host, a partial record
that specifies only the density, and a concrete pass state: the specified
field takes the specified value and every other field is exercised through
its reset-to-default conjunct. -/
theorem C1_amended_witness :
    ∃ st2, godraysSetParams hostA { density := some (1 / 4) } passStateA = Except.ok st2 ∧
      (({ density := some (1 / 4) } : PartialGodraysPassParams).density = none →
        st2.illum.uniforms.density = defaultParams.density) ∧
      (({ density := some (1 / 4) } : PartialGodraysPassParams).maxDensity = none →
        st2.illum.uniforms.maxDensity = defaultParams.maxDensity) ∧
      (({ density := some (1 / 4) } : PartialGodraysPassParams).distanceAttenuation = none →
        st2.illum.uniforms.distanceAttenuation = defaultParams.distanceAttenuation) ∧
      (({ density := some (1 / 4) } : PartialGodraysPassParams).edgeStrength = none →
        st2.compositor.edgeStrength = defaultParams.edgeStrength) ∧
      (({ density := some (1 / 4) } : PartialGodraysPassParams).edgeRadius = none →
        st2.compositor.edgeRadius = defaultParams.edgeRadius) ∧
      (({ density := some (1 / 4) } : PartialGodraysPassParams).color = none →
        st2.compositor.color = defaultParams.color) ∧
      (∀ d, ({ density := some (1 / 4) } : PartialGodraysPassParams).density = some d →
        st2.illum.uniforms.density = d) ∧
      (∀ d, ({ density := some (1 / 4) } : PartialGodraysPassParams).maxDensity = some d →
        st2.illum.uniforms.maxDensity = d) ∧
      (∀ d, ({ density := some (1 / 4) } : PartialGodraysPassParams).distanceAttenuation = some d →
        st2.illum.uniforms.distanceAttenuation = d) ∧
      (∀ d, ({ density := some (1 / 4) } : PartialGodraysPassParams).edgeStrength = some d →
        st2.compositor.edgeStrength = d) ∧
      (∀ d, ({ density := some (1 / 4) } : PartialGodraysPassParams).edgeRadius = some d →
        st2.compositor.edgeRadius = d) ∧
      (∀ c, ({ density := some (1 / 4) } : PartialGodraysPassParams).color = some c →
        st2.compositor.color = c) :=
  C1_amended hostA
    { map := some { texture := 1, height := 512 }, cameraNear := 1 / 10, cameraFar := 1000 }
    rfl { density := some (1 / 4) } passStateA

/-- Claim C2: every call to `setDepthTexture` — on the illumination pass, on
the compositor pass, and on the combined `GodraysPass` — with a provided
depth packing other than `BasicDepthPacking` returns the configuration error
synchronously from that call. -/
theorem C2_setDepthTexture_rejects (depthTexture : Nat) (p : DepthPacking)
    (hp : p ≠ DepthPacking.basic) (u : IllumUniforms) (c : CompositorUniforms)
    (st : GodraysPassState) :
    (illumSetDepthTexture depthTexture (some p) u).2 =
      some "Only BasicDepthPacking is supported" ∧
    (compositorSetDepthTexture depthTexture (some p) c).2 =
      some "Only BasicDepthPacking is supported" ∧
    (godraysSetDepthTexture depthTexture (some p) st).2 =
      some "Only BasicDepthPacking is supported" := by
  have hb : badDepthPacking (some p) = true := by
    cases p with
    | basic => exact absurd rfl hp
    | rgba => rfl
  refine ⟨?_, ?_, ?_⟩
  · simp [illumSetDepthTexture, hb]
  · simp [compositorSetDepthTexture, hb]
  · simp [godraysSetDepthTexture, illumSetDepthTexture, hb]

/-- Witness for claim C2 at a concrete texture, the RGBA packing, and
concrete pass states. -/
theorem C2_setDepthTexture_rejects_witness :
    (illumSetDepthTexture 7 (some DepthPacking.rgba) godraysMaterialUniforms).2 =
      some "Only BasicDepthPacking is supported" ∧
    (compositorSetDepthTexture 7 (some DepthPacking.rgba) passStateA.compositor).2 =
      some "Only BasicDepthPacking is supported" ∧
    (godraysSetDepthTexture 7 (some DepthPacking.rgba) passStateA).2 =
      some "Only BasicDepthPacking is supported" :=
  C2_setDepthTexture_rejects 7 DepthPacking.rgba (by decide)
    godraysMaterialUniforms passStateA.compositor passStateA

/-- Claim C3 is false as stated: a concrete run in which the pass is
constructed (shadow map not yet available) with density 1/4, the user then
sets density to 1/2 via `setParams`, and on the first frame the shadow map
becomes available the render re-applies the construction-time `lastParams`,
resetting the density uniform to 1/4 instead of the current 1/2. -/
theorem C3_counterexample :
    ∃ st1 : GodraysPassState, ∃ st2 : IllumPassState, ∃ cmds : List RenderCmd,
      (godraysConstruct hostNoMap { density := some (1 / 4) }).bind
        (godraysSetParams hostNoMap { density := some (1 / 2) }) = Except.ok st1 ∧
      st1.illum.uniforms.density = 1 / 2 ∧
      st1.illum.lastParams.density = 1 / 4 ∧
      illumRender hostA 0 st1.illum = Except.ok (st2, cmds) ∧
      st2.uniforms.density = 1 / 4 ∧
      (1 / 4 : ℚ) ≠ 1 / 2 :=
  ⟨_, _, _, rfl, rfl, rfl, rfl, rfl, by norm_num⟩

/-- Claim C3 (amended): on a light with a shadow configuration, if the
shadow map is not yet available the illumination render does not fail and
returns the pass state unchanged (the uniform bundle keeps its previously
applied values); on the first frame the map is available with `shadowMapSet`
still false, the uniforms are updated automatically from the current props
and the params captured at construction (`lastParams`, which later
`setParams` calls do not refresh). -/
theorem C3_amended (h : HostState) (s : PointLightShadow)
    (hs : h.shadow = some s) (target : Nat) (st : IllumPassState) :
    (s.map = none → illumRender h target st = Except.ok (st,
      [RenderCmd.setRenderTarget (some target), RenderCmd.draw PassTag.illum])) ∧
    (st.shadowMapSet = false → ∀ m, s.map = some m →
      ∃ u, updateUniforms h st.lastParams st.uniforms = Except.ok u ∧
        illumRender h target st =
          Except.ok ({ st with uniforms := u, shadowMapSet := true },
            [RenderCmd.setRenderTarget (some target), RenderCmd.draw PassTag.illum])) := by
  constructor
  · intro hm
    cases hset : st.shadowMapSet <;> simp [illumRender, hs, hm, hset]
  · intro hset m hm
    refine ⟨{ st.uniforms with
        density := st.lastParams.density
        maxDensity := st.lastParams.maxDensity
        lightPos := VRef.lightPosObj
        cameraPos := VRef.cameraPosObj
        projectionMatrixInv := VRef.projMatrixInvObj
        viewMatrixInv := VRef.matrixWorldObj
        depthCube := s.map.map ShadowMap.texture
        mapSize := (s.map.map ShadowMap.height).getD 1
        pointLightCameraNear := s.cameraNear
        pointLightCameraFar := s.cameraFar
        distanceAttenuation := st.lastParams.distanceAttenuation }, ?_, ?_⟩
    · unfold updateUniforms
      rw [hs]
    · simp [illumRender, updateUniforms, hs, hm, hset]
      rfl

/-- Witness for the amended claim C3 at a concrete host whose shadow map is
available and a concrete pass state with `shadowMapSet` still false. -/
theorem C3_amended_witness :
    (({ map := some { texture := 1, height := 512 }, cameraNear := 1 / 10,
        cameraFar := 1000 } : PointLightShadow).map = none →
      illumRender hostA 0 passStateA.illum = Except.ok (passStateA.illum,
        [RenderCmd.setRenderTarget (some 0), RenderCmd.draw PassTag.illum])) ∧
    (passStateA.illum.shadowMapSet = false → ∀ m,
      ({ map := some { texture := 1, height := 512 }, cameraNear := 1 / 10,
         cameraFar := 1000 } : PointLightShadow).map = some m →
      ∃ u, updateUniforms hostA passStateA.illum.lastParams
          passStateA.illum.uniforms = Except.ok u ∧
        illumRender hostA 0 passStateA.illum =
          Except.ok ({ passStateA.illum with uniforms := u, shadowMapSet := true },
            [RenderCmd.setRenderTarget (some 0), RenderCmd.draw PassTag.illum])) :=
  C3_amended hostA
    { map := some { texture := 1, height := 512 }, cameraNear := 1 / 10, cameraFar := 1000 }
    rfl 0 passStateA.illum

/-- Claim C4: on a point light with no shadow configuration, the uniform
update throws, constructing a `GodraysPass` throws, and `setParams` throws —
each with the fatal error "Point light must have shadow". -/
theorem C4_missing_shadow_fatal (h : HostState) (hn : h.shadow = none)
    (params : GodraysPassParams) (u : IllumUniforms)
    (pp : PartialGodraysPassParams) (st : GodraysPassState) :
    updateUniforms h params u = Except.error "Point light must have shadow" ∧
    godraysConstruct h pp = Except.error "Point light must have shadow" ∧
    godraysSetParams h pp st = Except.error "Point light must have shadow" := by
  refine ⟨?_, ?_, ?_⟩
  · unfold updateUniforms
    rw [hn]
  · unfold godraysConstruct illumConstruct updateUniforms
    rw [hn]
    rfl
  · unfold godraysSetParams updateUniforms
    rw [hn]
    rfl

/-- Witness for claim C4 at a concrete host whose light has no shadow. -/
theorem C4_missing_shadow_fatal_witness :
    updateUniforms hostNone defaultParams godraysMaterialUniforms =
      Except.error "Point light must have shadow" ∧
    godraysConstruct hostNone {} = Except.error "Point light must have shadow" ∧
    godraysSetParams hostNone {} passStateA =
      Except.error "Point light must have shadow" :=
  C4_missing_shadow_fatal hostNone rfl defaultParams godraysMaterialUniforms {} passStateA

/-- Claim C5: for every step count, lit/occluded pattern and per-step
falloff factors (each nonnegative), with a nonnegative density rate and a
nonnegative maxDensity, the accumulated density produced by the illumination
raymarch lies in [0, maxDensity]. -/
theorem C5_density_bounds (density maxDensity : ℚ) (steps : List (Bool × ℚ))
    (hd : 0 ≤ density) (hm : 0 ≤ maxDensity)
    (hf : ∀ s ∈ steps, 0 ≤ s.2) :
    0 ≤ accumulateDensity density maxDensity steps ∧
    accumulateDensity density maxDensity steps ≤ maxDensity :=
  accumulateDensity_foldl_bounds density maxDensity hd steps hf 0 le_rfl hm

/-- Witness for claim C5 at a concrete three-step raymarch. -/
theorem C5_density_bounds_witness :
    0 ≤ accumulateDensity (3 / 10) (1 / 2) [(true, 1), (true, 1 / 2), (false, 1)] ∧
    accumulateDensity (3 / 10) (1 / 2) [(true, 1), (true, 1 / 2), (false, 1)] ≤ 1 / 2 :=
  C5_density_bounds (3 / 10) (1 / 2) [(true, 1), (true, 1 / 2), (false, 1)]
    (by norm_num) (by norm_num)
    (by
      intro s hs
      simp only [List.mem_cons, List.not_mem_nil, or_false] at hs
      rcases hs with h | h | h <;> rw [h] <;> norm_num)

/-- Claim C6: for positive dimensions, `GodraysPass.setSize` sets the
godrays render target and the illumination resolution uniform to the fixed
0.5-scale of the output resolution in each dimension — the rounded-up half,
`Math.ceil(dim * GODRAYS_RESOLUTION_SCALE) = (dim + 1) / 2`. -/
theorem C6_setSize_half_scale (width height : Nat) (_hw : 0 < width)
    (_hh : 0 < height) (st : GodraysPassState) :
    (godraysSetSize width height st).godraysRenderTarget.width = scaleDim width ∧
    (godraysSetSize width height st).godraysRenderTarget.height = scaleDim height ∧
    (godraysSetSize width height st).illum.uniforms.resolution =
      (scaleDim width, scaleDim height) ∧
    scaleDim width = (width + 1) / 2 ∧
    scaleDim height = (height + 1) / 2 :=
  ⟨rfl, rfl, rfl, scaleDim_eq width, scaleDim_eq height⟩

/-- Witness for claim C6 at concrete dimensions 1920 by 1081. -/
theorem C6_setSize_half_scale_witness :
    (godraysSetSize 1920 1081 passStateA).godraysRenderTarget.width = scaleDim 1920 ∧
    (godraysSetSize 1920 1081 passStateA).godraysRenderTarget.height = scaleDim 1081 ∧
    (godraysSetSize 1920 1081 passStateA).illum.uniforms.resolution =
      (scaleDim 1920, scaleDim 1081) ∧
    scaleDim 1920 = (1920 + 1) / 2 ∧
    scaleDim 1081 = (1081 + 1) / 2 :=
  C6_setSize_half_scale 1920 1081 (by decide) (by decide) passStateA

/-- Claim C7 is false as stated: a concrete run in which the pass is
constructed and rendered once against a host whose shadow map texture is 1
(capturing `depthCube = some 1`), after which the host replaces the shadow
map with a new render target whose texture is 2; the next frame's render
leaves the uniform bundle untouched, so the shadow map handle uniform still
holds texture 1 while the light's current shadow map texture is 2 — the
handle is not refreshed every frame. -/
theorem C7_counterexample :
    ∃ st0 : GodraysPassState, ∃ st1 : IllumPassState, ∃ cmds1 : List RenderCmd,
    ∃ st2 : IllumPassState, ∃ cmds2 : List RenderCmd,
      godraysConstruct hostA {} = Except.ok st0 ∧
      illumRender hostA 0 st0.illum = Except.ok (st1, cmds1) ∧
      st1.uniforms.depthCube = some 1 ∧
      illumRender hostB 0 st1 = Except.ok (st2, cmds2) ∧
      st2 = st1 ∧
      st2.uniforms.depthCube = some 1 ∧
      (hostB.shadow.bind PointLightShadow.map).map ShadowMap.texture = some 2 ∧
      (some 1 : Option Nat) ≠ some 2 :=
  ⟨_, _, _, _, _, rfl, rfl, rfl, rfl, rfl, rfl, rfl, by decide⟩

/-- Claim C7 (amended): the camera- and light-derived vector and matrix
uniforms are assigned references to the live camera/light objects, so the
values they observe are current on every frame without per-frame
reassignment; the render call itself performs no uniform update once
`shadowMapSet` is true, so snapshot uniforms such as the shadow map texture
handle are only refreshed by `updateUniforms` (at construction, at
`setParams`, or on the first frame the shadow map becomes available). -/
theorem C7_amended (h h2 : HostState) (params : GodraysPassParams)
    (u u2 : IllumUniforms) (hu : updateUniforms h params u = Except.ok u2)
    (target : Nat) (st : IllumPassState) (hset : st.shadowMapSet = true) :
    illumRender h2 target st = Except.ok (st,
      [RenderCmd.setRenderTarget (some target), RenderCmd.draw PassTag.illum]) ∧
    VRef.deref h2 u2.lightPos = h2.lightPosV ∧
    VRef.deref h2 u2.cameraPos = h2.cameraPosV ∧
    VRef.deref h2 u2.projectionMatrixInv = h2.projMatrixInvV ∧
    VRef.deref h2 u2.viewMatrixInv = h2.matrixWorldV := by
  have hrender : illumRender h2 target st = Except.ok (st,
      [RenderCmd.setRenderTarget (some target), RenderCmd.draw PassTag.illum]) := by
    simp [illumRender, hset]
  unfold updateUniforms at hu
  cases hsh : h.shadow with
  | none =>
      rw [hsh] at hu
      exact absurd hu (by simp)
  | some s =>
      rw [hsh] at hu
      simp only [Except.ok.injEq] at hu
      subst hu
      exact ⟨hrender, rfl, rfl, rfl, rfl⟩

/-- Witness for the amended claim C7 at the concrete uniform bundle produced
against `hostA`, observed against the distinct host state `hostB`. -/
theorem C7_amended_witness :
    illumRender hostB 0 illumStateSet = Except.ok (illumStateSet,
      [RenderCmd.setRenderTarget (some 0), RenderCmd.draw PassTag.illum]) ∧
    VRef.deref hostB uniformsA.lightPos = hostB.lightPosV ∧
    VRef.deref hostB uniformsA.cameraPos = hostB.cameraPosV ∧
    VRef.deref hostB uniformsA.projectionMatrixInv = hostB.projMatrixInvV ∧
    VRef.deref hostB uniformsA.viewMatrixInv = hostB.matrixWorldV :=
  C7_amended hostA hostB defaultParams godraysMaterialUniforms uniformsA rfl
    0 illumStateSet rfl

/-- Claim C8: within a single `GodraysPass.render` call, the renderer
command stream first binds the godrays render target and draws the
illumination pass, and only then binds the output target and draws the
compositor pass, whose `godrays` uniform reads the godrays render target's
texture and whose `sceneDiffuse` uniform reads the full-resolution scene
color input. -/
theorem C8_render_order (h : HostState) (s : PointLightShadow)
    (hs : h.shadow = some s) (inputTexture outputTexture : Nat)
    (st : GodraysPassState)
    (hw : st.compositor.godrays = st.godraysRenderTarget.texture) :
    ∃ st2, godraysRender h inputTexture outputTexture st = Except.ok (st2,
      [RenderCmd.setRenderTarget (some st.godraysRenderTarget.texture),
       RenderCmd.draw PassTag.illum,
       RenderCmd.setRenderTarget (if st.renderToScreen then none else some outputTexture),
       RenderCmd.draw PassTag.compositor]) ∧
      st2.compositor.godrays = st.godraysRenderTarget.texture ∧
      st2.compositor.sceneDiffuse = some inputTexture := by
  cases hset : st.illum.shadowMapSet with
  | true =>
      refine ⟨{ st with compositor :=
        { st.compositor with sceneDiffuse := some inputTexture } }, ?_, hw, rfl⟩
      simp [godraysRender, illumRender, compositorRender, hset]
      rfl
  | false =>
      cases hm : s.map with
      | none =>
          refine ⟨{ st with compositor :=
            { st.compositor with sceneDiffuse := some inputTexture } }, ?_, hw, rfl⟩
          simp [godraysRender, illumRender, compositorRender, hs, hm, hset]
          rfl
      | some m =>
          refine ⟨{ st with
            illum := { st.illum with
              uniforms := { st.illum.uniforms with
                density := st.illum.lastParams.density
                maxDensity := st.illum.lastParams.maxDensity
                lightPos := VRef.lightPosObj
                cameraPos := VRef.cameraPosObj
                projectionMatrixInv := VRef.projMatrixInvObj
                viewMatrixInv := VRef.matrixWorldObj
                depthCube := some m.texture
                mapSize := m.height
                pointLightCameraNear := s.cameraNear
                pointLightCameraFar := s.cameraFar
                distanceAttenuation := st.illum.lastParams.distanceAttenuation }
              shadowMapSet := true }
            compositor := { st.compositor with sceneDiffuse := some inputTexture } },
            ?_, hw, rfl⟩
          simp [godraysRender, illumRender, compositorRender, updateUniforms,
            hs, hm, hset]
          rfl

/-- Witness for claim C8 at a concrete host, input and output textures, and
a concrete freshly-constructed pass state. -/
theorem C8_render_order_witness :
    ∃ st2, godraysRender hostA 5 6 passStateA = Except.ok (st2,
      [RenderCmd.setRenderTarget (some passStateA.godraysRenderTarget.texture),
       RenderCmd.draw PassTag.illum,
       RenderCmd.setRenderTarget (if passStateA.renderToScreen then none else some 6),
       RenderCmd.draw PassTag.compositor]) ∧
      st2.compositor.godrays = passStateA.godraysRenderTarget.texture ∧
      st2.compositor.sceneDiffuse = some 5 :=
  C8_render_order hostA
    { map := some { texture := 1, height := 512 }, cameraNear := 1 / 10, cameraFar := 1000 }
    rfl 5 6 passStateA rfl

/-- Claim C9: `GodraysPass.setSize` is idempotent — applying it twice with
the same width and height yields the same state as applying it once, for
every width, height and starting state. -/
theorem C9_setSize_idempotent (width height : Nat) (st : GodraysPassState) :
    godraysSetSize width height (godraysSetSize width height st) =
      godraysSetSize width height st :=
  rfl

/-- Claim C10: on an unsupported depth packing, `GodraysPass.setDepthTexture`
raises the error non-atomically — the illumination pass's `sceneDepth`
uniform has already been assigned the new texture when the error is raised,
while the compositor pass's uniforms are left entirely unchanged. -/
theorem C10_setDepthTexture_non_atomic (depthTexture : Nat) (p : DepthPacking)
    (hp : p ≠ DepthPacking.basic) (st : GodraysPassState) :
    (godraysSetDepthTexture depthTexture (some p) st).2 =
      some "Only BasicDepthPacking is supported" ∧
    (godraysSetDepthTexture depthTexture (some p) st).1.illum.uniforms.sceneDepth =
      some depthTexture ∧
    (godraysSetDepthTexture depthTexture (some p) st).1.compositor =
      st.compositor := by
  have hb : badDepthPacking (some p) = true := by
    cases p with
    | basic => exact absurd rfl hp
    | rgba => rfl
  refine ⟨?_, ?_, ?_⟩ <;>
    simp [godraysSetDepthTexture, illumSetDepthTexture, hb]

/-- Witness for claim C10 at a concrete texture, the RGBA packing and a
concrete pass state. -/
theorem C10_setDepthTexture_non_atomic_witness :
    (godraysSetDepthTexture 7 (some DepthPacking.rgba) passStateA).2 =
      some "Only BasicDepthPacking is supported" ∧
    (godraysSetDepthTexture 7 (some DepthPacking.rgba) passStateA).1.illum.uniforms.sceneDepth =
      some 7 ∧
    (godraysSetDepthTexture 7 (some DepthPacking.rgba) passStateA).1.compositor =
      passStateA.compositor :=
  C10_setDepthTexture_non_atomic 7 DepthPacking.rgba (by decide) passStateA

end ThreeGoodGodrays
